import Mathlib

/-!
Verification development for the Insta Outreach Logger browser extension
(`src/extension/background.js` and `src/extension/content.js`).

The two scripts are shallowly embedded: the DOM and the Chrome APIs are
external inputs, so DOM-derived values (scraped usernames, chat-input text,
`chrome.storage` reads) and connection outcomes (`chrome.runtime.connectNative`
succeeding or failing) are passed in as parameters, while the scripts' own
state (the `contentPorts` / `pendingRequests` maps, the `messageIdCounter`,
`currentActorUsername`, the single `nativePort` slot) and their message
handlers are translated from the source line by line.  JS `Map` objects are
modelled as association lists with JS `Map.set`/`get`/`delete` semantics, and
JS truthiness checks on ids (`if (tabId)`, `if (message.requestId)`) and on
strings are modelled explicitly (`0`, `null`/`none` and `""` are falsy).
-/

namespace InstaLogger

/-- JS truthiness of a possibly-missing numeric id: `undefined`/`null` and `0`
are falsy (`background.js` checks `if (tabId)` and `if (message.requestId)`). -/
def truthyId : Option Nat → Bool
  | none => false
  | some n => n != 0

/-- JS truthiness of a possibly-missing string: `undefined`/`null` and `""`
are falsy. -/
def truthyS : Option String → Bool
  | none => false
  | some s => s != ""

/-- JS `Map.get`: the value stored at key `k`, if any. -/
def mget {A : Type} (m : List (Nat × A)) (k : Nat) : Option A :=
  match m with
  | [] => none
  | (k1, v) :: rest => if k1 = k then some v else mget rest k

/-- JS `Map.set`: overwrite the entry at key `k` in place, or append a new
entry at the end. -/
def mset {A : Type} (m : List (Nat × A)) (k : Nat) (v : A) : List (Nat × A) :=
  match m with
  | [] => [(k, v)]
  | (k1, v1) :: rest => if k1 = k then (k, v) :: rest else (k1, v1) :: mset rest k v

/-- JS `Map.delete`: remove the entry at key `k`. -/
def mdel {A : Type} (m : List (Nat × A)) (k : Nat) : List (Nat × A) :=
  match m with
  | [] => []
  | (k1, v1) :: rest => if k1 = k then mdel rest k else (k1, v1) :: mdel rest k

/-- The `payload` object of an extension message.  JS objects are dynamic, so
every field the scripts ever put in a payload is an optional field; a field is
present exactly when it is `some`.  (`content.js` payload literals: lines 189,
493, 681, 793.) -/
structure Payload where
  target : Option String := none
  actor : Option String := none
  message : Option String := none
  new_status : Option String := none
  old_actor : Option String := none
  new_actor : Option String := none
deriving DecidableEq

/-- A message object exchanged between content script, background script and
native host.  As with `Payload`, each field the scripts ever read or write is
optional and present exactly when `some`.  `body` stands for the remaining
content of messages originating from the native host (the background script
forwards such messages verbatim without inspecting anything but `requestId`,
background.js lines 138-158). -/
structure Obj where
  type : Option String := none
  payload : Option Payload := none
  requestId : Option Nat := none
  username : Option String := none
  error : Option Bool := none
  message : Option String := none
  friendlyMessage : Option String := none
  success : Option Bool := none
  data : Option String := none
  errorCode : Option String := none
  keep_alive : Option Bool := none
  body : Nat := 0
deriving DecidableEq

/-- An entry of the background script's `pendingRequests` map
(background.js lines 89-96). -/
structure PendingEntry where
  tabId : Option Nat
  requestId : Nat
  contextTarget : Option String
deriving DecidableEq

/-- The background script's mutable state: the single `nativePort` slot
(port identities are numbered), `contentPorts` (tab id to port id), and
`pendingRequests` (request id to entry).  background.js lines 1-6. -/
structure BgState where
  nativePort : Option Nat
  contentPorts : List (Nat × Nat)
  pendingRequests : List (Nat × PendingEntry)
deriving DecidableEq

/-- Where the background script posts a message: a content-script port, or the
native host port. -/
inductive Dest where
  | contentPort (portId : Nat)
  | nativeHost
deriving DecidableEq

/-- The synthesized offline response, background.js lines 108-113. -/
def offlineResponse (rid : Nat) : Obj :=
  { requestId := some rid,
    error := some true,
    message := some "APPLICATION_OFFLINE",
    friendlyMessage := some "Application not running. Please ensure the Insta Outreach Logger app is open on your computer." }

/-- `connectNative()` (background.js lines 130-136, 174-178): a no-op if a
native port already exists; otherwise the slot becomes the outcome of
`chrome.runtime.connectNative` (`some` a fresh port id on success, `none` when
the attempt fails and the catch block resets `nativePort = null`). -/
def connectNative (s : BgState) (connectResult : Option Nat) : BgState :=
  match s.nativePort with
  | some _ => s
  | none => { s with nativePort := connectResult }

/-- Lines 89-96 of background.js: store request info for response routing.
The entry is keyed only by `message.requestId`; `Map.set` overwrites any
existing entry with the same id.  The `context.target` field is recorded for
`CHECK_PROSPECT_STATUS` messages. -/
def registerPending (s : BgState) (tabId : Option Nat) (message : Obj) : BgState :=
  match message.requestId with
  | some rid =>
      if rid ≠ 0 then
        let contextTarget : Option String :=
          if message.type = some "CHECK_PROSPECT_STATUS" then
            (match message.payload with
             | some p => p.target
             | none => none)
          else none
        { s with pendingRequests := mset s.pendingRequests rid ⟨tabId, rid, contextTarget⟩ }
      else s
  | none => s

/-- The background script's `port.onMessage` listener (background.js lines
41-118).  `FOUND_ACTOR_USERNAME` and `REQUEST_ACTOR_DISCOVERY` return early
(their effects touch only `chrome.storage`/`chrome.tabs`, outside this model).
Otherwise the request is registered and forwarded to the native host; if no
native port exists, `connectNative()` is attempted (outcome `connectResult`)
and, when it fails and the message has a truthy `requestId` and the sender a
truthy tab id, the offline response is posted back on the sender's port. -/
def portOnMessage (s : BgState) (portId : Nat) (tabId : Option Nat)
    (connectResult : Option Nat) (message : Obj) : BgState × List (Dest × Obj) :=
  if message.type = some "FOUND_ACTOR_USERNAME" then (s, [])
  else if message.type = some "REQUEST_ACTOR_DISCOVERY" then (s, [])
  else
    let s1 := registerPending s tabId message
    match s1.nativePort with
    | some _ => (s1, [(Dest.nativeHost, message)])
    | none =>
        let s2 := connectNative s1 connectResult
        match s2.nativePort with
        | none =>
            if truthyId message.requestId = true ∧ truthyId tabId = true then
              (s2, [(Dest.contentPort portId, offlineResponse (message.requestId.getD 0))])
            else (s2, [])
        | some _ => (s2, [(Dest.nativeHost, message)])

/-- `contentPorts.forEach((port) => port.postMessage(message))`,
background.js lines 154-156. -/
def broadcastAll (s : BgState) (message : Obj) : List (Dest × Obj) :=
  s.contentPorts.map (fun pr => (Dest.contentPort pr.2, message))

/-- The `nativePort.onMessage` listener (background.js lines 138-158): a
message whose truthy `requestId` has a pending entry consumes that entry and
is posted only to the port registered for the entry's tab (nothing is posted
if that tab's port is gone); every other message is broadcast to all connected
content-script ports. -/
def nativeOnMessage (s : BgState) (message : Obj) : BgState × List (Dest × Obj) :=
  match message.requestId with
  | some rid =>
      if rid ≠ 0 then
        match mget s.pendingRequests rid with
        | some entry =>
            ({ s with pendingRequests := mdel s.pendingRequests rid },
             match entry.tabId with
             | some t =>
                 (match mget s.contentPorts t with
                  | some p => [(Dest.contentPort p, message)]
                  | none => [])
             | none => [])
        | none => (s, broadcastAll s message)
      else (s, broadcastAll s message)
  | none => (s, broadcastAll s message)

/-- The externally visible events the background script reacts to. -/
inductive BgEvent where
  | contentConnect (portId : Nat) (tabId : Option Nat)
  | contentMessage (portId : Nat) (tabId : Option Nat) (connectResult : Option Nat) (message : Obj)
  | contentDisconnect (tabId : Option Nat)
  | nativeMessage (message : Obj)
  | nativeDisconnect
  | keepAliveTick (connectResult : Option Nat)
deriving DecidableEq

/-- One background-script step: dispatches an event to the listeners
registered in background.js.  `contentConnect` is the `onConnect` handler
(lines 32-39), `contentDisconnect` the `port.onDisconnect` handler (lines
120-125), `nativeDisconnect` the `nativePort.onDisconnect` handler (lines
160-173, which only clears the slot and replays nothing), and `keepAliveTick`
the 295 s interval (lines 185-191). -/
def bgStep (s : BgState) (e : BgEvent) : BgState × List (Dest × Obj) :=
  match e with
  | .contentConnect portId tabId =>
      ((match tabId with
        | some t => if t ≠ 0 then { s with contentPorts := mset s.contentPorts t portId } else s
        | none => s), [])
  | .contentMessage portId tabId connectResult message =>
      portOnMessage s portId tabId connectResult message
  | .contentDisconnect tabId =>
      ((match tabId with
        | some t => if t ≠ 0 then { s with contentPorts := mdel s.contentPorts t } else s
        | none => s), [])
  | .nativeMessage message => nativeOnMessage s message
  | .nativeDisconnect => ({ s with nativePort := none }, [])
  | .keepAliveTick connectResult =>
      match s.nativePort with
      | some _ => (s, [(Dest.nativeHost, { keep_alive := some true })])
      | none => (connectNative s connectResult, [])

/-- The content script's per-tab state (content.js lines 26-38): the
message-id counter starting at 0, the callback map, and the cached actor
username used for switch detection.  Callbacks are identified by numbers. -/
structure CsState where
  messageIdCounter : Nat := 0
  pendingCallbacks : List (Nat × Nat) := []
  currentActorUsername : Option String := none
deriving DecidableEq

/-- `sendMessageToBackground(data, callback)` (content.js lines 63-79): when a
callback is supplied, the request id is the pre-incremented per-tab counter
(`++messageIdCounter`, so the first id is 1), the callback is registered, and
`data.requestId` is set; without a callback the object is posted unchanged.
Returns the updated state and the posted message. -/
def sendMessageToBackground (s : CsState) (data : Obj) (callback : Option Nat) :
    CsState × Obj :=
  match callback with
  | some cb =>
      let requestId := s.messageIdCounter + 1
      ({ s with messageIdCounter := requestId,
                pendingCallbacks := mset s.pendingCallbacks requestId cb },
       { data with requestId := some requestId })
  | none => (s, data)

/-- A sequence of `sendMessageToBackground` calls, each with a callback;
returns the final state and the posted messages in order. -/
def sendAllWithCallbacks (s : CsState) : List Obj → CsState × List Obj
  | [] => (s, [])
  | d :: ds =>
      let first := sendMessageToBackground s d (some 0)
      let rest := sendAllWithCallbacks first.1 ds
      (rest.1, first.2 :: rest.2)

/-- `handleActorSwitch(newUsername)` (content.js lines 177-197): the cached
`currentActorUsername` is overwritten BEFORE the `ACTOR_SWITCH` payload is
built, and the payload reads `old_actor` from the already-overwritten cache.
The message is sent without a callback. -/
def handleActorSwitch (s : CsState) (newUsername : String) : CsState × Obj :=
  let s1 := { s with currentActorUsername := some newUsername }
  sendMessageToBackground s1
    { type := some "ACTOR_SWITCH",
      payload := some { old_actor := s1.currentActorUsername,
                        new_actor := some newUsername } }
    none

/-- `checkForActorSwitch()` (content.js lines 203-231), with the scraped
viewer username and the `chrome.storage` read passed in as inputs.  Returns
the new state and the message sent to the background script, if any. -/
def checkForActorSwitch (s : CsState) (scraped stored : Option String) :
    CsState × Option Obj :=
  match scraped with
  | none => (s, none)
  | some scrapedU =>
      if scrapedU = "" then (s, none)
      else
        let s1 := if truthyS s.currentActorUsername = false ∧ truthyS stored = true then
                    { s with currentActorUsername := stored }
                  else s
        match stored with
        | some storedU =>
            if storedU = "" then
              let s2 := { s1 with currentActorUsername := some scrapedU }
              let sent := sendMessageToBackground s2
                { type := some "FOUND_ACTOR_USERNAME", username := some scrapedU } none
              (sent.1, some sent.2)
            else if scrapedU ≠ storedU then
              let sent := handleActorSwitch s1 scrapedU
              (sent.1, some sent.2)
            else (s1, none)
        | none =>
            let s2 := { s1 with currentActorUsername := some scrapedU }
            let sent := sendMessageToBackground s2
              { type := some "FOUND_ACTOR_USERNAME", username := some scrapedU } none
            (sent.1, some sent.2)

/-- The whitespace set of the JS `String.prototype.trim` (ECMAScript
WhiteSpace and LineTerminator code points). -/
def isJsWhitespace (c : Char) : Bool :=
  c == ' ' || c == '\t' || c == '\n' || c == '\r' || c == '\x0b' || c == '\x0c' ||
  c == '\u00A0' || c == '\u1680' || c == '\u2000' || c == '\u2001' || c == '\u2002' ||
  c == '\u2003' || c == '\u2004' || c == '\u2005' || c == '\u2006' || c == '\u2007' ||
  c == '\u2008' || c == '\u2009' || c == '\u200A' || c == '\u2028' || c == '\u2029' ||
  c == '\u202F' || c == '\u205F' || c == '\u3000' || c == '\uFEFF'

/-- Drop the leading whitespace of a character list. -/
def dropLeadWs : List Char → List Char
  | [] => []
  | c :: cs => if isJsWhitespace c then dropLeadWs cs else c :: cs

/-- JS `String.prototype.trim`: drop trailing, then leading whitespace. -/
def jsTrim (s : List Char) : List Char :=
  dropLeadWs (dropLeadWs s.reverse).reverse

/-- The target-resolution logic of `logOutreach` (content.js lines 774-781):
the proximity-climber result (`getTargetUsername`, a DOM scrape passed in as
an input) is used if truthy; otherwise the cached `lastCheckedUsername` is
used when it is truthy and neither `"unknown_target"` nor
`"not_in_a_dm_thread"`. -/
def resolveTarget (proximityTarget : Option String) (lastCheckedUsername : String) :
    Option String :=
  if truthyS proximityTarget = false ∧ lastCheckedUsername ≠ "" ∧
     lastCheckedUsername ≠ "unknown_target" ∧ lastCheckedUsername ≠ "not_in_a_dm_thread"
  then some lastCheckedUsername
  else proximityTarget

/-- `logOutreach(inputElement)` (content.js lines 767-807), with the DOM
reads passed in as inputs: `text` is the chat input's text content, `actorU`
the `getActorUsername()` result, `proximityTarget` the `getTargetUsername`
result and `cached` the global `lastCheckedUsername`.  Returns the
`LOG_OUTREACH` message posted to the background script, or `none` when the
capture is silently dropped (the function just returns, sending nothing). -/
def logOutreach (text : List Char) (actorU : String) (proximityTarget : Option String)
    (cached : String) : Option Obj :=
  if jsTrim text = [] then none
  else if truthyS (resolveTarget proximityTarget cached) = false ∨
          resolveTarget proximityTarget cached = some "unknown_target" ∨
          actorU = "unknown_actor" then none
  else
    some { type := some "LOG_OUTREACH",
           payload := some { target := resolveTarget proximityTarget cached,
                             actor := some actorU,
                             message := some (String.mk ((jsTrim text).take 200)) } }

/-- One of the six `sendMessageToBackground` call sites of content.js
(lines 109, 229, 187, 491, 679, 791). -/
inductive SendSite where
  | discovery (username : String)
  | firstTimeActor (username : String)
  | actorSwitchNotify (newUsername : String)
  | updateProspect (target newStatus actorU : String)
  | checkProspect (target : String)
  | logOutreachMsg (target actorU snippet : String)
deriving DecidableEq

/-- Whether the call site passes a response callback. -/
def siteHasCallback : SendSite → Bool
  | .discovery _ => false
  | .firstTimeActor _ => false
  | .actorSwitchNotify _ => false
  | .updateProspect _ _ _ => true
  | .checkProspect _ => true
  | .logOutreachMsg _ _ _ => true

/-- The message each call site builds and posts, transcribed from the
respective content.js line. -/
def siteSend (cs : CsState) : SendSite → CsState × Obj
  | .discovery u =>
      sendMessageToBackground cs
        { type := some "FOUND_ACTOR_USERNAME", username := some u } none
  | .firstTimeActor u =>
      sendMessageToBackground cs
        { type := some "FOUND_ACTOR_USERNAME", username := some u } none
  | .actorSwitchNotify newU => handleActorSwitch cs newU
  | .updateProspect target newStatus actorU =>
      sendMessageToBackground cs
        { type := some "UPDATE_PROSPECT_STATUS",
          payload := some { target := some target, new_status := some newStatus,
                            actor := some actorU } }
        (some 0)
  | .checkProspect target =>
      sendMessageToBackground cs
        { type := some "CHECK_PROSPECT_STATUS",
          payload := some { target := some target } }
        (some 0)
  | .logOutreachMsg target actorU snippet =>
      sendMessageToBackground cs
        { type := some "LOG_OUTREACH",
          payload := some { target := some target, actor := some actorU,
                            message := some snippet } }
        (some 0)

/-- Modelled from the spec: the kind of an ActivityRecord (spec section 3;
the native host's storage layer is not among the extension sources). -/
inductive EventKind where
  | outreach
  | statusChange
  | system
deriving DecidableEq

/-- Modelled from the spec: an append-only ActivityRecord of the Local
Durable Store (spec section 3).  The storage layer itself (the Python native
host's database code) is not under the extension sources, so its data model
is taken from the spec's words. -/
structure ActivityRecord where
  localId : Nat
  kind : EventKind
  actor : String
  target : String
  synced : Bool
deriving DecidableEq

/-- Modelled from the spec: the OutreachDetail child row; its message text is
nullable per the spec's Privacy Invariant. -/
structure OutreachDetail where
  parentId : Nat
  messageText : Option String
deriving DecidableEq

/-- Modelled from the spec: the Local Durable Store's contents relevant to
the Privacy Invariant. -/
structure LocalStore where
  nextId : Nat := 0
  activities : List ActivityRecord := []
  details : List OutreachDetail := []
deriving DecidableEq

/-- Modelled from the spec: storing one captured outreach (spec sections 3
and 4.1, `append_activity`): the ActivityRecord and its OutreachDetail are
created together; per the Privacy Invariant the detail's message field is
stored as absent when the target is flagged Excluded at capture time, while
the record itself is persisted unsynced. -/
def storeOutreach (st : LocalStore) (targetExcluded : Bool)
    (actorU targetU snippet : String) : LocalStore :=
  { nextId := st.nextId + 1,
    activities := st.activities ++ [⟨st.nextId, EventKind.outreach, actorU, targetU, false⟩],
    details := st.details ++ [⟨st.nextId, if targetExcluded then none else some snippet⟩] }

/-- Modelled from the spec: `list_unsynced` (spec section 4.1), the records
the Sync Engine will push. -/
def listUnsynced (st : LocalStore) : List ActivityRecord :=
  st.activities.filter (fun a => !a.synced)

/-- Modelled from the spec: a fully successful Push cycle marks every record
synced (spec section 4.4). -/
def markAllSynced (st : LocalStore) : LocalStore :=
  { st with activities := st.activities.map (fun a => { a with synced := true }) }

/-- Claim C1's two-step scenario packaged as one definition: a content-script
port for tab `t` disconnects, then a native-host message `resp` is handled. -/
def afterDropThenRoute (s : BgState) (t : Nat) (resp : Obj) : BgState × List (Dest × Obj) :=
  bgStep (bgStep s (BgEvent.contentDisconnect (some t))).1 (BgEvent.nativeMessage resp)

/-- The emission condition of C10 as the claim words it: trimmed text
non-empty; a target resolved either by proximity climbing or from the cached
`lastCheckedUsername`, and not equal to `"unknown_target"`; actor known. -/
def claimEmitCond (text : List Char) (actorU : String) (proximityTarget : Option String)
    (cached : String) : Bool :=
  !(jsTrim text).isEmpty &&
  (match proximityTarget with
   | some u => u != "unknown_target"
   | none => cached != "" && cached != "unknown_target") &&
  actorU != "unknown_actor"

/-- The amended emission condition of C10: as the claim, except that a cached
`lastCheckedUsername` equal to the sentinel `"not_in_a_dm_thread"` does not
resolve the target either, and the proximity result must be truthy. -/
def amendedEmitCond (text : List Char) (actorU : String) (proximityTarget : Option String)
    (cached : String) : Prop :=
  jsTrim text ≠ [] ∧
  (if truthyS proximityTarget = true then proximityTarget ≠ some "unknown_target"
   else (cached ≠ "" ∧ cached ≠ "unknown_target" ∧ cached ≠ "not_in_a_dm_thread")) ∧
  actorU ≠ "unknown_actor"

/-- A `CHECK_PROSPECT_STATUS` request as built by content.js line 679. -/
def objCheck : Obj :=
  { type := some "CHECK_PROSPECT_STATUS", payload := some { target := some "tgt" } }

/-- Session A (tab 1): a fresh content script submits its first request. -/
def c1SessA : CsState × Obj := sendMessageToBackground {} objCheck (some 0)

/-- Session B (tab 2): an independent fresh content script submits its first
request; its counter also starts at 0. -/
def c1SessB : CsState × Obj := sendMessageToBackground {} objCheck (some 0)

/-- Background state with a live native port and the two tabs connected. -/
def c1Bg0 : BgState :=
  { nativePort := some 9, contentPorts := [(1, 101), (2, 102)], pendingRequests := [] }

/-- Background state after registering and forwarding session A's request. -/
def c1Bg1 : BgState := (bgStep c1Bg0 (BgEvent.contentMessage 101 (some 1) none c1SessA.2)).1

/-- Background state after also registering session B's request: the entry for
request id 1 now records tab 2, session A's entry having been overwritten. -/
def c1Bg2 : BgState := (bgStep c1Bg1 (BgEvent.contentMessage 102 (some 2) none c1SessB.2)).1

/-- The native host's response to session A's request (it answers requests in
arrival order, so this response carries session A's correlation id 1). -/
def c1Resp : Obj := { requestId := some 1, body := 77 }

/-- Concrete offline-scenario background state for C2: no native port. -/
def c2S : BgState := { nativePort := none, contentPorts := [(4, 40)], pendingRequests := [] }

/-- Concrete `LOG_OUTREACH` request for C2's witness. -/
def c2Msg : Obj :=
  { type := some "LOG_OUTREACH",
    payload := some { target := some "t", actor := some "a", message := some "hi" },
    requestId := some 1 }

/-- Concrete background state for C3's witness: tab 5 has request 1 in
flight, tab 6 has request 2 in flight, both tabs connected. -/
def c3S : BgState :=
  { nativePort := some 9,
    contentPorts := [(5, 50), (6, 60)],
    pendingRequests := [(1, ⟨some 5, 1, none⟩), (2, ⟨some 6, 2, none⟩)] }

/-- The pending entry of tab 5's request in `c3S`. -/
def c3Entry : PendingEntry := ⟨some 5, 1, none⟩

/-- The native host's response to tab 5's request. -/
def c3Resp : Obj := { requestId := some 1, body := 5 }

/-- Concrete background state for C4's witness. -/
def c4S : BgState :=
  { nativePort := some 9, contentPorts := [(5, 50), (6, 60)],
    pendingRequests := [(1, ⟨some 5, 1, none⟩)] }

/-- A native-host message without any `requestId` (an unsolicited
notification). -/
def c4NoId : Obj := { body := 3 }

/-- A native-host message whose `requestId` matches `c4S`'s pending entry. -/
def c4WithId : Obj := { requestId := some 1, body := 4 }

/-- Content-script state for C6: the previous actor is `"alice"`. -/
def c6Cs : CsState := { currentActorUsername := some "alice" }

/-- Concrete background state with a live native port (id 9) for C8's
witness. -/
def c8S : BgState :=
  { nativePort := some 9, contentPorts := [(4, 40)], pendingRequests := [] }

/-- Concrete chat-input text (with surrounding whitespace) for the
content-script witnesses. -/
def c9Text : List Char := [' ', 'h', 'i', '!', ' ']

/-- The `LOG_OUTREACH` message `logOutreach` emits for `c9Text`, actor
`"alice"`, proximity target `"bob"`. -/
def c9Msg : Obj :=
  { type := some "LOG_OUTREACH",
    payload := some { target := some "bob", actor := some "alice",
                      message := some "hi!" } }

theorem mget_mset_self {A : Type} (m : List (Nat × A)) (k : Nat) (v : A) :
    mget (mset m k v) k = some v := by
  induction m with
  | nil => simp [mset, mget]
  | cons h t ih =>
      obtain ⟨k1, v1⟩ := h
      by_cases hk : k1 = k
      · simp [mset, mget, hk]
      · simp [mset, mget, hk, ih]

theorem mget_mset_ne {A : Type} (m : List (Nat × A)) (k k2 : Nat) (v : A)
    (h : k2 ≠ k) : mget (mset m k v) k2 = mget m k2 := by
  have h2 : ¬ k = k2 := fun hh => h hh.symm
  induction m with
  | nil => simp [mset, mget, h2]
  | cons hd t ih =>
      obtain ⟨k1, v1⟩ := hd
      by_cases hk : k1 = k
      · subst hk
        simp [mset, mget, h2]
      · simp [mset, mget, hk, ih]

theorem mget_mdel_self {A : Type} (m : List (Nat × A)) (k : Nat) :
    mget (mdel m k) k = none := by
  induction m with
  | nil => simp [mdel, mget]
  | cons hd t ih =>
      obtain ⟨k1, v1⟩ := hd
      by_cases hk : k1 = k
      · simp [mdel, hk, ih]
      · simp [mdel, mget, hk, ih]

theorem mget_mdel_ne {A : Type} (m : List (Nat × A)) (k k2 : Nat)
    (h : k2 ≠ k) : mget (mdel m k) k2 = mget m k2 := by
  have h2 : ¬ k = k2 := fun hh => h hh.symm
  induction m with
  | nil => simp [mdel]
  | cons hd t ih =>
      obtain ⟨k1, v1⟩ := hd
      by_cases hk : k1 = k
      · subst hk
        simp [mdel, mget, h2, ih]
      · simp [mdel, mget, hk, ih]

theorem registerPending_nativePort (s : BgState) (tabId : Option Nat) (message : Obj) :
    (registerPending s tabId message).nativePort = s.nativePort := by
  unfold registerPending
  cases message.requestId with
  | none => rfl
  | some rid => by_cases h : rid ≠ 0 <;> simp [h]

theorem registerPending_contentPorts (s : BgState) (tabId : Option Nat) (message : Obj) :
    (registerPending s tabId message).contentPorts = s.contentPorts := by
  unfold registerPending
  cases message.requestId with
  | none => rfl
  | some rid => by_cases h : rid ≠ 0 <;> simp [h]

theorem connectNative_of_none (s : BgState) (r : Option Nat) (h : s.nativePort = none) :
    connectNative s r = { s with nativePort := r } := by
  unfold connectNative
  rw [h]

theorem portOnMessage_keeps_native (s : BgState) (portId : Nat) (tabId cr : Option Nat)
    (msg : Obj) (p : Nat) (hp : s.nativePort = some p) :
    ((portOnMessage s portId tabId cr msg).1).nativePort = some p := by
  by_cases hA : msg.type = some "FOUND_ACTOR_USERNAME"
  · simp [portOnMessage, hA, hp]
  · by_cases hB : msg.type = some "REQUEST_ACTOR_DISCOVERY"
    · simp [portOnMessage, hA, hB, hp]
    · have h1 : (registerPending s tabId msg).nativePort = some p :=
        (registerPending_nativePort s tabId msg).trans hp
      simp [portOnMessage, hA, hB, h1]

theorem nativeOnMessage_keeps_native (s : BgState) (msg : Obj) (p : Nat)
    (hp : s.nativePort = some p) :
    ((nativeOnMessage s msg).1).nativePort = some p := by
  unfold nativeOnMessage
  cases hr : msg.requestId with
  | none => simpa using hp
  | some rid =>
      by_cases h0 : rid ≠ 0
      · cases hpend : mget s.pendingRequests rid with
        | none => simp [h0, hpend, hp]
        | some entry => simp [h0, hpend, hp]
      · simp [h0, hp]

theorem nativeOnMessage_matched (s : BgState) (message : Obj) (rid : Nat)
    (entry : PendingEntry) (hrid : message.requestId = some rid) (h0 : rid ≠ 0)
    (hpend : mget s.pendingRequests rid = some entry) :
    nativeOnMessage s message =
      ({ s with pendingRequests := mdel s.pendingRequests rid },
       match entry.tabId with
       | some t =>
           (match mget s.contentPorts t with
            | some p => [(Dest.contentPort p, message)]
            | none => [])
       | none => []) := by
  unfold nativeOnMessage
  rw [hrid]
  simp [h0, hpend]

theorem nativeOnMessage_unmatched (s : BgState) (message : Obj)
    (h : message.requestId = none ∨
         (∀ rid, message.requestId = some rid → mget s.pendingRequests rid = none)) :
    nativeOnMessage s message = (s, broadcastAll s message) := by
  unfold nativeOnMessage
  cases hr : message.requestId with
  | none => rfl
  | some rid =>
      rcases h with h | h
      · rw [hr] at h
        exact absurd h (by simp)
      · by_cases h0 : rid ≠ 0
        · simp [h0, h rid hr]
        · simp [h0]

theorem dropLeadWs_head (l : List Char) :
    dropLeadWs l = [] ∨
    ∃ c cs, dropLeadWs l = c :: cs ∧ isJsWhitespace c = false := by
  induction l with
  | nil => exact Or.inl rfl
  | cons c cs ih =>
      by_cases h : isJsWhitespace c
      · simpa [dropLeadWs, h] using ih
      · exact Or.inr ⟨c, cs, by simp [dropLeadWs, h], by simpa using h⟩

theorem jsTrim_head (l : List Char) :
    jsTrim l = [] ∨
    ∃ c cs, jsTrim l = c :: cs ∧ isJsWhitespace c = false :=
  dropLeadWs_head ((dropLeadWs l.reverse).reverse)

theorem logOutreach_message_eq (text : List Char) (actorU : String)
    (proximityTarget : Option String) (cached : String) (m : Obj)
    (h : logOutreach text actorU proximityTarget cached = some m) :
    m.payload.bind Payload.message = some (String.mk ((jsTrim text).take 200)) := by
  unfold logOutreach at h
  by_cases h1 : jsTrim text = []
  · simp [h1] at h
  · rw [if_neg h1] at h
    by_cases h2 : truthyS (resolveTarget proximityTarget cached) = false ∨
        resolveTarget proximityTarget cached = some "unknown_target" ∨
        actorU = "unknown_actor"
    · rw [if_pos h2] at h
      exact absurd h (by simp)
    · rw [if_neg h2] at h
      cases h
      rfl

theorem logOutreach_trim_ne_nil (text : List Char) (actorU : String)
    (proximityTarget : Option String) (cached : String) (m : Obj)
    (h : logOutreach text actorU proximityTarget cached = some m) :
    jsTrim text ≠ [] := by
  intro hempty
  unfold logOutreach at h
  simp [hempty] at h

theorem sendAll_requestIds (cs : CsState) (ds : List Obj) :
    (sendAllWithCallbacks cs ds).2.map Obj.requestId =
      (List.range' (cs.messageIdCounter + 1) ds.length).map some := by
  induction ds generalizing cs with
  | nil => rfl
  | cons d ds ih =>
      simp [sendAllWithCallbacks, sendMessageToBackground, List.range', ih]

/-- C2: a request submitted while the native host is unreachable
(`connectNative` fails to establish a port, modelled by `connectResult =
none`) gets a synthesized `APPLICATION_OFFLINE` response, carrying its own
request id, posted back to the submitting session's port within the same
handling step (hence within a bounded, short time), rather than leaving the
caller waiting. -/
theorem offline_response_synthesized (s : BgState) (portId rid t : Nat) (message : Obj)
    (hport : s.nativePort = none)
    (hrid : message.requestId = some rid) (hrid0 : rid ≠ 0) (ht : t ≠ 0)
    (h1 : message.type ≠ some "FOUND_ACTOR_USERNAME")
    (h2 : message.type ≠ some "REQUEST_ACTOR_DISCOVERY") :
    (bgStep s (BgEvent.contentMessage portId (some t) none message)).2 =
      [(Dest.contentPort portId, offlineResponse rid)] ∧
    (offlineResponse rid).message = some "APPLICATION_OFFLINE" ∧
    (offlineResponse rid).requestId = some rid ∧
    (offlineResponse rid).error = some true := by
  refine ⟨?_, rfl, rfl, rfl⟩
  show (portOnMessage s portId (some t) none message).2 = _
  have hreg : (registerPending s (some t) message).nativePort = none :=
    (registerPending_nativePort s (some t) message).trans hport
  simp [portOnMessage, h1, h2, hreg, connectNative_of_none, hrid, hrid0, truthyId, ht]

/-- C3: if a session (tab `t`) disconnects after submitting request `rid` and
the native host's response arrives afterwards, the pending entry is consumed,
the response is posted to no port at all, and the pending requests of every
other request id and the port registrations of every other tab are unchanged. -/
theorem disconnect_drops_only_own_delivery (s : BgState) (t rid : Nat)
    (entry : PendingEntry) (resp : Obj)
    (hrid0 : rid ≠ 0) (ht : t ≠ 0)
    (hpend : mget s.pendingRequests rid = some entry)
    (htab : entry.tabId = some t)
    (hresp : resp.requestId = some rid) :
    (afterDropThenRoute s t resp).2 = [] ∧
    mget (afterDropThenRoute s t resp).1.pendingRequests rid = none ∧
    (∀ r, r ≠ rid → mget (afterDropThenRoute s t resp).1.pendingRequests r =
        mget s.pendingRequests r) ∧
    (∀ u, u ≠ t → mget (afterDropThenRoute s t resp).1.contentPorts u =
        mget s.contentPorts u) := by
  have hs1 : (bgStep s (BgEvent.contentDisconnect (some t))).1 =
      { s with contentPorts := mdel s.contentPorts t } := by
    simp [bgStep, ht]
  have hmain : afterDropThenRoute s t resp =
      ({ s with contentPorts := mdel s.contentPorts t,
                pendingRequests := mdel s.pendingRequests rid }, []) := by
    unfold afterDropThenRoute
    rw [hs1]
    show nativeOnMessage _ resp = _
    rw [nativeOnMessage_matched _ resp rid entry hresp hrid0 (by simpa using hpend)]
    rw [htab]
    simp [mget_mdel_self]
  rw [hmain]
  refine ⟨rfl, by simpa using mget_mdel_self s.pendingRequests rid, ?_, ?_⟩
  · intro r hr
    simpa using mget_mdel_ne s.pendingRequests rid r hr
  · intro u hu
    simpa using mget_mdel_ne s.contentPorts t u hu

/-- C4: a native-host message carrying no usable correlation id (no
`requestId`, or a `requestId` with no pending entry) is broadcast to every
currently connected session and changes no state; conversely a message whose
`requestId` matches a pending entry is delivered only to the port registered
for the session recorded in that entry. -/
theorem broadcast_vs_unicast_routing (s : BgState) (message : Obj) :
    ((message.requestId = none ∨
        (∀ rid, message.requestId = some rid → mget s.pendingRequests rid = none)) →
      bgStep s (BgEvent.nativeMessage message) = (s, broadcastAll s message)) ∧
    (∀ rid entry, message.requestId = some rid → rid ≠ 0 →
      mget s.pendingRequests rid = some entry →
      (bgStep s (BgEvent.nativeMessage message)).2 =
        (match entry.tabId with
         | some t =>
             (match mget s.contentPorts t with
              | some p => [(Dest.contentPort p, message)]
              | none => [])
         | none => [])) := by
  constructor
  · intro h
    show nativeOnMessage s message = _
    exact nativeOnMessage_unmatched s message h
  · intro rid entry hrid h0 hpend
    show (nativeOnMessage s message).2 = _
    rw [nativeOnMessage_matched s message rid entry hrid h0 hpend]

/-- C8: the Gate holds at most one native-host connection: `connectNative` is
a no-op while a connection exists, and no background event other than the
observed native disconnect ever changes an existing connection (the slot is
cleared only by `nativePort.onDisconnect`, or stays empty when a connection
attempt fails). -/
theorem single_native_connection :
    (∀ (s : BgState) (p : Nat) (r : Option Nat),
        s.nativePort = some p → connectNative s r = s) ∧
    (∀ (s : BgState) (e : BgEvent) (p : Nat),
        s.nativePort = some p → e ≠ BgEvent.nativeDisconnect →
        ((bgStep s e).1).nativePort = some p) := by
  constructor
  · intro s p r hp
    unfold connectNative
    rw [hp]
  · intro s e p hp hne
    cases e with
    | contentConnect portId tabId =>
        cases tabId with
        | none => simpa [bgStep] using hp
        | some t => by_cases h : t ≠ 0 <;> simp [bgStep, h, hp]
    | contentMessage portId tabId cr message =>
        exact portOnMessage_keeps_native s portId tabId cr message p hp
    | contentDisconnect tabId =>
        cases tabId with
        | none => simpa [bgStep] using hp
        | some t => by_cases h : t ≠ 0 <;> simp [bgStep, h, hp]
    | nativeMessage message => exact nativeOnMessage_keeps_native s message p hp
    | nativeDisconnect => exact absurd rfl hne
    | keepAliveTick cr => simp [bgStep, hp]

/-- C1 counterexample: two distinct sessions (tabs 1 and 2, ports 101 and
102) each submit their first request; both are assigned correlation id 1, so
ids are NOT unique across sessions, and after both registrations the native
host's response carrying id 1 — which answers session A's request, the first
one it received — is delivered to session B's port 102 only. -/
theorem requestId_collision_across_sessions :
    c1SessA.2.requestId = some 1 ∧ c1SessB.2.requestId = some 1 ∧
    (bgStep c1Bg2 (BgEvent.nativeMessage c1Resp)).2 = [(Dest.contentPort 102, c1Resp)] := by
  decide

/-- C1 (amended): correlation ids are unique within a single session — the
per-tab counter assigns strictly increasing ids, so any sequence of requests
from one session carries pairwise distinct ids — and a native response whose
`requestId` has a pending entry is delivered only to the port of the tab
recorded in that entry. -/
theorem per_session_ids_unique_and_routing :
    (∀ (cs : CsState) (ds : List Obj),
        ((sendAllWithCallbacks cs ds).2.map Obj.requestId).Nodup) ∧
    (∀ (s : BgState) (message : Obj) (rid : Nat) (entry : PendingEntry),
        message.requestId = some rid → rid ≠ 0 →
        mget s.pendingRequests rid = some entry →
        (bgStep s (BgEvent.nativeMessage message)).2 =
          (match entry.tabId with
           | some t =>
               (match mget s.contentPorts t with
                | some p => [(Dest.contentPort p, message)]
                | none => [])
           | none => [])) := by
  constructor
  · intro cs ds
    rw [sendAll_requestIds]
    exact (List.nodup_range' _ _).map (Option.some_injective _)
  · intro s message rid entry hrid h0 hpend
    show (nativeOnMessage s message).2 = _
    rw [nativeOnMessage_matched s message rid entry hrid h0 hpend]

/-- C6: when an account switch from `"alice"` to `"bob"` is detected
(`checkForActorSwitch` sees scraped `"bob"` against stored `"alice"`), the
emitted `ACTOR_SWITCH` message carries `old_actor = "bob"` equal to
`new_actor = "bob"` — the previous actor `"alice"` is lost, because
`handleActorSwitch` overwrites `currentActorUsername` before building the
payload.  This contradicts the claim (and the field's own name), which call
for `old_actor = "alice"` distinct from `new_actor = "bob"`. -/
theorem actor_switch_emits_old_equal_new :
    (checkForActorSwitch c6Cs (some "bob") (some "alice")).2 =
      some { type := some "ACTOR_SWITCH",
             payload := some { old_actor := some "bob", new_actor := some "bob" } } := by
  decide

/-- C7 counterexample: the `FOUND_ACTOR_USERNAME` message of the discovery
mode carries no `payload` and no correlation id, so not every caller message
has the shape `\x7btype, payload, correlationId\x7d`; and the synthesized
offline response has no `success`, `data` or `errorCode` field but an
`error` flag, so not every response has the shape
`\x7bcorrelationId, success, data | errorCode\x7d`. -/
theorem message_shape_counterexample :
    ((siteSend {} (SendSite.discovery "alice")).2.payload = none ∧
     (siteSend {} (SendSite.discovery "alice")).2.requestId = none) ∧
    ((offlineResponse 1).success = none ∧ (offlineResponse 1).errorCode = none ∧
     (offlineResponse 1).data = none ∧ (offlineResponse 1).error = some true) := by
  decide

/-- C7 (amended): messages sent with a response callback
(`CHECK_PROSPECT_STATUS`, `UPDATE_PROSPECT_STATUS`, `LOG_OUTREACH`) carry a
`type`, a `payload` and a `requestId` (the freshly incremented counter);
fire-and-forget messages (`FOUND_ACTOR_USERNAME`, `ACTOR_SWITCH`) carry a
`type` but no `requestId`; and the synthesized offline response has exactly
the shape `\x7brequestId, error: true, message: "APPLICATION_OFFLINE",
friendlyMessage\x7d` with no `success`/`data`/`errorCode` fields. -/
theorem message_shape_amended (cs : CsState) (site : SendSite) :
    (siteHasCallback site = true →
       ((siteSend cs site).2.type.isSome = true ∧
        (siteSend cs site).2.payload.isSome = true ∧
        (siteSend cs site).2.requestId = some (cs.messageIdCounter + 1))) ∧
    (siteHasCallback site = false →
       ((siteSend cs site).2.type.isSome = true ∧
        (siteSend cs site).2.requestId = none)) ∧
    (∀ rid, (offlineResponse rid).requestId = some rid ∧
            (offlineResponse rid).error = some true ∧
            (offlineResponse rid).message = some "APPLICATION_OFFLINE" ∧
            (offlineResponse rid).success = none ∧
            (offlineResponse rid).data = none ∧
            (offlineResponse rid).errorCode = none) := by
  refine ⟨?_, ?_, fun rid => ⟨rfl, rfl, rfl, rfl, rfl, rfl⟩⟩ <;>
    · intro hcb
      cases site <;>
        simp_all [siteSend, siteHasCallback, sendMessageToBackground, handleActorSwitch]

/-- C9: whenever `logOutreach` emits a `LOG_OUTREACH` message, its payload's
`message` field equals the first at-most-200 characters of the trimmed
chat-input text; that snippet never exceeds 200 characters, is never empty,
and contains a non-whitespace character (its first character). -/
theorem log_outreach_snippet_shape (text : List Char) (actorU : String)
    (proximityTarget : Option String) (cached : String) (m : Obj)
    (h : logOutreach text actorU proximityTarget cached = some m) :
    m.payload.bind Payload.message = some (String.mk ((jsTrim text).take 200)) ∧
    ((jsTrim text).take 200).length ≤ 200 ∧
    (jsTrim text).take 200 ≠ [] ∧
    ((jsTrim text).take 200).any (fun c => !(isJsWhitespace c)) = true := by
  have hmsg := logOutreach_message_eq text actorU proximityTarget cached m h
  have hne := logOutreach_trim_ne_nil text actorU proximityTarget cached m h
  rcases jsTrim_head text with hnil | ⟨c, cs, hcons, hws⟩
  · exact absurd hnil hne
  · have htake : (c :: cs).take 200 = c :: cs.take 199 := rfl
    refine ⟨hmsg, List.length_take_le _ _, ?_, ?_⟩
    · rw [hcons, htake]
      simp
    · rw [hcons, htake]
      simp [hws]

/-- C10 counterexample: with chat text `"hi"`, actor `"alice"`, a failed
proximity climb and the cached `lastCheckedUsername` holding the sentinel
`"not_in_a_dm_thread"`, the claim's emission condition holds (the cached name
is non-empty and differs from `"unknown_target"`), yet `logOutreach` emits
nothing — the code also rejects the `"not_in_a_dm_thread"` sentinel. -/
theorem log_outreach_emit_cond_counterexample :
    claimEmitCond ['h', 'i'] "alice" none "not_in_a_dm_thread" = true ∧
    logOutreach ['h', 'i'] "alice" none "not_in_a_dm_thread" = none := by
  decide

/-- C10 (amended): `logOutreach` emits a `LOG_OUTREACH` message if and only
if the trimmed chat-input text is non-empty, a target username is resolved
(a truthy proximity-climb result other than `"unknown_target"`, or — when the
proximity climb fails — a cached `lastCheckedUsername` that is non-empty and
neither `"unknown_target"` nor `"not_in_a_dm_thread"`), and the actor
username is known; in every other case it returns without emitting anything,
surfacing no error. -/
theorem log_outreach_emit_iff (text : List Char) (actorU : String)
    (proximityTarget : Option String) (cached : String) :
    (logOutreach text actorU proximityTarget cached).isSome = true ↔
      amendedEmitCond text actorU proximityTarget cached := by
  unfold logOutreach amendedEmitCond resolveTarget
  by_cases h1 : jsTrim text = [] <;>
    by_cases htp : truthyS proximityTarget = true <;>
      by_cases hc1 : cached = "" <;>
        by_cases hc2 : cached = "unknown_target" <;>
          by_cases hc3 : cached = "not_in_a_dm_thread" <;>
            by_cases hu : proximityTarget = some "unknown_target" <;>
              by_cases ha : actorU = "unknown_actor" <;>
                simp_all [truthyS]

/-- C5: the extension's `logOutreach` always ships the message snippet (it
never consults any exclusion flag), so the Privacy Invariant is enforced in
the storage layer, which is modelled from the spec: storing a capture whose
target is flagged Excluded yields an `OutreachDetail` whose message field is
absent while the parent `ActivityRecord` is persisted, listed for the next
push, and marked synced by a successful push — the act is logged, the
content is not. -/
theorem excluded_target_message_absent (st : LocalStore) (text : List Char)
    (actorU targetU snippet cached : String) (proximityTarget : Option String) (m : Obj)
    (h : logOutreach text actorU proximityTarget cached = some m) :
    (m.payload.bind Payload.message).isSome = true ∧
    (OutreachDetail.mk st.nextId none) ∈
      (storeOutreach st true actorU targetU snippet).details ∧
    (ActivityRecord.mk st.nextId EventKind.outreach actorU targetU false) ∈
      (storeOutreach st true actorU targetU snippet).activities ∧
    (ActivityRecord.mk st.nextId EventKind.outreach actorU targetU false) ∈
      listUnsynced (storeOutreach st true actorU targetU snippet) ∧
    (ActivityRecord.mk st.nextId EventKind.outreach actorU targetU true) ∈
      (markAllSynced (storeOutreach st true actorU targetU snippet)).activities := by
  refine ⟨?_, ?_, ?_, ?_, ?_⟩
  · rw [logOutreach_message_eq text actorU proximityTarget cached m h]
    rfl
  · simp [storeOutreach]
  · simp [storeOutreach]
  · simp [listUnsynced, storeOutreach]
  · simp [markAllSynced, storeOutreach]

/-- Witness for C2: the offline response is synthesized at the concrete
offline state `c2S` for the concrete request `c2Msg`. -/
theorem offline_response_synthesized_witness :
    (bgStep c2S (BgEvent.contentMessage 40 (some 4) none c2Msg)).2 =
      [(Dest.contentPort 40, offlineResponse 1)] ∧
    (offlineResponse 1).message = some "APPLICATION_OFFLINE" :=
  ⟨(offline_response_synthesized c2S 40 1 4 c2Msg rfl rfl (by decide) (by decide)
      (by decide) (by decide)).1,
   (offline_response_synthesized c2S 40 1 4 c2Msg rfl rfl (by decide) (by decide)
      (by decide) (by decide)).2.1⟩

/-- Witness for C3 at the concrete state `c3S`: tab 5 disconnects, the
response to its request 1 is dropped, and tab 6's request 2 and port are
untouched. -/
theorem disconnect_drops_only_own_delivery_witness :
    (afterDropThenRoute c3S 5 c3Resp).2 = [] ∧
    mget (afterDropThenRoute c3S 5 c3Resp).1.pendingRequests 1 = none ∧
    mget (afterDropThenRoute c3S 5 c3Resp).1.pendingRequests 2 =
      mget c3S.pendingRequests 2 ∧
    mget (afterDropThenRoute c3S 5 c3Resp).1.contentPorts 6 = mget c3S.contentPorts 6 := by
  have h := disconnect_drops_only_own_delivery c3S 5 1 c3Entry c3Resp (by decide)
      (by decide) (by decide) rfl rfl
  exact ⟨h.1, h.2.1, h.2.2.1 2 (by decide), h.2.2.2 6 (by decide)⟩

/-- Witness for C4 at the concrete state `c4S`: a message without id is
broadcast to both connected tabs, a matching one goes only to tab 5's port. -/
theorem broadcast_vs_unicast_routing_witness :
    bgStep c4S (BgEvent.nativeMessage c4NoId) = (c4S, broadcastAll c4S c4NoId) ∧
    (bgStep c4S (BgEvent.nativeMessage c4WithId)).2 = [(Dest.contentPort 50, c4WithId)] := by
  refine ⟨(broadcast_vs_unicast_routing c4S c4NoId).1 (Or.inl rfl), ?_⟩
  have h := (broadcast_vs_unicast_routing c4S c4WithId).2 1 ⟨some 5, 1, none⟩ rfl
      (by decide) (by decide)
  exact h.trans (by decide)

/-- Witness for C8 at the concrete connected state `c8S`. -/
theorem single_native_connection_witness :
    connectNative c8S (some 3) = c8S ∧
    ((bgStep c8S (BgEvent.keepAliveTick none)).1).nativePort = some 9 :=
  ⟨single_native_connection.1 c8S 9 (some 3) rfl,
   single_native_connection.2 c8S (BgEvent.keepAliveTick none) 9 rfl (by decide)⟩

/-- Witness for the amended C1: two requests of one session get distinct ids,
and the response for the pending entry of `c1Bg2` goes only to the recorded
tab's port. -/
theorem per_session_ids_unique_and_routing_witness :
    ((sendAllWithCallbacks {} [objCheck, objCheck]).2.map Obj.requestId).Nodup ∧
    (bgStep c1Bg2 (BgEvent.nativeMessage c1Resp)).2 = [(Dest.contentPort 102, c1Resp)] := by
  refine ⟨per_session_ids_unique_and_routing.1 {} [objCheck, objCheck], ?_⟩
  have h := per_session_ids_unique_and_routing.2 c1Bg2 c1Resp 1 ⟨some 2, 1, some "tgt"⟩
      rfl (by decide) (by decide)
  exact h.trans (by decide)

/-- Witness for the amended C7 at concrete call sites. -/
theorem message_shape_amended_witness :
    ((siteSend {} (SendSite.checkProspect "x")).2.type.isSome = true ∧
     (siteSend {} (SendSite.checkProspect "x")).2.payload.isSome = true ∧
     (siteSend {} (SendSite.checkProspect "x")).2.requestId = some 1) ∧
    ((siteSend {} (SendSite.discovery "a")).2.type.isSome = true ∧
     (siteSend {} (SendSite.discovery "a")).2.requestId = none) ∧
    (offlineResponse 7).requestId = some 7 :=
  ⟨(message_shape_amended {} (SendSite.checkProspect "x")).1 rfl,
   (message_shape_amended {} (SendSite.discovery "a")).2.1 rfl,
   ((message_shape_amended {} (SendSite.discovery "a")).2.2 7).1⟩

/-- Witness for C9 at the concrete capture `c9Text`, which `logOutreach`
turns into `c9Msg`. -/
theorem log_outreach_snippet_shape_witness :
    c9Msg.payload.bind Payload.message = some (String.mk ((jsTrim c9Text).take 200)) ∧
    ((jsTrim c9Text).take 200).length ≤ 200 ∧
    (jsTrim c9Text).take 200 ≠ [] ∧
    ((jsTrim c9Text).take 200).any (fun c => !(isJsWhitespace c)) = true :=
  log_outreach_snippet_shape c9Text "alice" (some "bob") "" c9Msg (by decide)

/-- Witness for C5 at the concrete capture `c9Text`/`c9Msg` stored into an
empty local store with the target flagged Excluded. -/
theorem excluded_target_message_absent_witness :
    (c9Msg.payload.bind Payload.message).isSome = true ∧
    (OutreachDetail.mk 0 none) ∈ (storeOutreach {} true "alice" "bob" "hi!").details ∧
    (ActivityRecord.mk 0 EventKind.outreach "alice" "bob" false) ∈
      (storeOutreach {} true "alice" "bob" "hi!").activities ∧
    (ActivityRecord.mk 0 EventKind.outreach "alice" "bob" false) ∈
      listUnsynced (storeOutreach {} true "alice" "bob" "hi!") ∧
    (ActivityRecord.mk 0 EventKind.outreach "alice" "bob" true) ∈
      (markAllSynced (storeOutreach {} true "alice" "bob" "hi!")).activities :=
  excluded_target_message_absent {} c9Text "alice" "bob" "hi!" "" (some "bob") c9Msg
    (by decide)

end InstaLogger
